import Mathlib

/-!
Shallow embedding of `src/cpp/cpp_nodiscard_errors.cpp`.

The program defines a four-member error enumeration `ErrorCode`, three stub
operations (`OpenFile`, `SendEmail`, `SystemCall`) that each return
`ErrorCode::OK` and perform no effect, and a `main` driver that calls the
three in order, returning `1` as soon as `OpenFile` or `SendEmail` yields a
non-`OK` status and falling through to exit code `0` otherwise.

Stateful C++ code is embedded by explicit state passing: each operation takes
and returns a `World` (the observable process state; here, the produced
output stream).  Since each stub body is a bare `return ErrorCode::OK;`, the
embedded operation leaves the world unchanged.  The driver is embedded twice:
`runMainWith` is the driver's control flow abstracted over the three callee
implementations (so that hypothetical non-`OK` results can be discussed), and
`main` instantiates it with the actual stubs.  The driver result records the
exit code, the sequence of operation calls performed, and the final world.
-/

namespace Nodiscard

/-- The `enum class [[nodiscard]] ErrorCode` of the source, lines 3–8:
exactly the four members `OK`, `Fatal`, `System`, `FileIssue`. -/
inductive ErrorCode where
  | OK
  | Fatal
  | System
  | FileIssue
deriving DecidableEq, Repr

/-- The observable process state threaded through the embedding.  The program
has no state beyond what it could print; `output` is the list of lines
written so far (the source writes none). -/
structure World where
  output : List String
deriving DecidableEq, Repr

/-- Source lines 10–13: `ErrorCode OpenFile(std::string_view fileName)`.
The body is `return ErrorCode::OK;`, so the world is untouched. -/
def OpenFile (fileName : String) (w : World) : ErrorCode × World :=
  (ErrorCode.OK, w)

/-- Source lines 15–18: `ErrorCode SendEmail(std::string_view sendto,
std::string_view text)`.  The body is `return ErrorCode::OK;`. -/
def SendEmail (sendto : String) (text : String) (w : World) : ErrorCode × World :=
  (ErrorCode.OK, w)

/-- Source lines 20–22: `ErrorCode SystemCall(std::string_view text)`.
The body is `return ErrorCode::OK;`. -/
def SystemCall (text : String) (w : World) : ErrorCode × World :=
  (ErrorCode.OK, w)

/-- One operation invocation performed by the driver, recorded with its
actual arguments. -/
inductive Call where
  | openFile (fileName : String)
  | sendEmail (sendto text : String)
  | systemCall (text : String)
deriving DecidableEq, Repr

/-- Outcome of a driver run: the process exit code, the operation calls made
in order, and the final world. -/
structure RunResult where
  exitCode : Nat
  calls : List Call
  world : World
deriving DecidableEq, Repr

/-- Source lines 24–33, the body of `main`, abstracted over the three callee
implementations: call `OpenFile("test.txt")` and return `1` if the result is
not `OK`; call `SendEmail("joe", "hello")` and return `1` if the result is
not `OK`; call `SystemCall("cd ..")`, ignore its result, and fall through to
exit code `0`.  The call list records which invocations were performed. -/
def runMainWith (openFile : String → World → ErrorCode × World)
    (sendEmail : String → String → World → ErrorCode × World)
    (systemCall : String → World → ErrorCode × World)
    (w : World) : RunResult :=
  let r1 := openFile "test.txt" w
  if r1.1 ≠ ErrorCode.OK then
    ⟨1, [Call.openFile "test.txt"], r1.2⟩
  else
    let r2 := sendEmail "joe" "hello" r1.2
    if r2.1 ≠ ErrorCode.OK then
      ⟨1, [Call.openFile "test.txt", Call.sendEmail "joe" "hello"], r2.2⟩
    else
      let r3 := systemCall "cd .." r2.2
      ⟨0, [Call.openFile "test.txt", Call.sendEmail "joe" "hello",
           Call.systemCall "cd .."], r3.2⟩

/-- The program's `main` (source lines 24–33): the driver control flow
instantiated with the three stub operations actually defined in the file. -/
def main (w : World) : RunResult :=
  runMainWith OpenFile SendEmail SystemCall w

/-- C1: for any callee implementations and starting world, the driver's exit
code is `1` exactly when `OpenFile` or `SendEmail` returns a non-`OK` status
and `0` otherwise, and a non-`OK` result causes immediate termination with no
other handling: the call list stops right at the failing call. -/
theorem runMainWith_exit_policy
    (op1 : String → World → ErrorCode × World)
    (op2 : String → String → World → ErrorCode × World)
    (op3 : String → World → ErrorCode × World) (w : World) :
    ((runMainWith op1 op2 op3 w).exitCode =
      if (op1 "test.txt" w).1 ≠ ErrorCode.OK ∨
          (op2 "joe" "hello" (op1 "test.txt" w).2).1 ≠ ErrorCode.OK
      then 1 else 0) ∧
    ((runMainWith op1 op2 op3 w).calls =
      if (op1 "test.txt" w).1 ≠ ErrorCode.OK then [Call.openFile "test.txt"]
      else if (op2 "joe" "hello" (op1 "test.txt" w).2).1 ≠ ErrorCode.OK then
        [Call.openFile "test.txt", Call.sendEmail "joe" "hello"]
      else [Call.openFile "test.txt", Call.sendEmail "joe" "hello",
            Call.systemCall "cd .."]) := by
  unfold runMainWith
  by_cases h1 : (op1 "test.txt" w).1 = ErrorCode.OK <;>
    by_cases h2 : (op2 "joe" "hello" (op1 "test.txt" w).2).1 = ErrorCode.OK <;>
      simp [h1, h2]

/-- C2: running the driver from the initial world (no output yet, mirroring a
run with no arguments) terminates with exit code `0` and produces no
output; termination is immediate from totality of the embedded driver. -/
theorem main_run_exit_zero_no_output :
    (main ⟨[]⟩).exitCode = 0 ∧ (main ⟨[]⟩).world.output = [] :=
  ⟨rfl, rfl⟩

/-- C4: for every text input `fileName` and every world, `OpenFile` returns
`OK` and leaves the world unchanged (no side effect). -/
theorem OpenFile_returns_ok (fileName : String) (w : World) :
    OpenFile fileName w = (ErrorCode.OK, w) :=
  rfl

/-- C5: for every pair of text inputs and every world, `SendEmail` returns
`OK` and leaves the world unchanged (no side effect). -/
theorem SendEmail_returns_ok (sendto text : String) (w : World) :
    SendEmail sendto text w = (ErrorCode.OK, w) :=
  rfl

/-- C6: for every text input `command` and every world, `SystemCall` returns
`OK` and leaves the world unchanged (no side effect). -/
theorem SystemCall_returns_ok (command : String) (w : World) :
    SystemCall command w = (ErrorCode.OK, w) :=
  rfl

/-- C7: the driver's exit code does not depend on the result of `SystemCall`:
replacing the `SystemCall` implementation by any other leaves the exit code
unchanged, for any implementations of the two examined operations. -/
theorem exitCode_independent_of_systemCall
    (op1 : String → World → ErrorCode × World)
    (op2 : String → String → World → ErrorCode × World)
    (op3 op3' : String → World → ErrorCode × World) (w : World) :
    (runMainWith op1 op2 op3 w).exitCode =
      (runMainWith op1 op2 op3' w).exitCode := by
  unfold runMainWith
  by_cases h1 : (op1 "test.txt" w).1 = ErrorCode.OK <;>
    by_cases h2 : (op2 "joe" "hello" (op1 "test.txt" w).2).1 = ErrorCode.OK <;>
      simp [h1, h2]

/-- C8: for any callee implementations, if `OpenFile("test.txt")` returns
`OK` the driver does not terminate early and proceeds to call
`SendEmail("joe", "hello")`; if that call in turn returns `OK`, the driver
proceeds to call `SystemCall("cd ..")`. -/
theorem runMainWith_proceeds_after_ok
    (op1 : String → World → ErrorCode × World)
    (op2 : String → String → World → ErrorCode × World)
    (op3 : String → World → ErrorCode × World) (w : World)
    (h1 : (op1 "test.txt" w).1 = ErrorCode.OK) :
    Call.sendEmail "joe" "hello" ∈ (runMainWith op1 op2 op3 w).calls ∧
    ((op2 "joe" "hello" (op1 "test.txt" w).2).1 = ErrorCode.OK →
      Call.systemCall "cd .." ∈ (runMainWith op1 op2 op3 w).calls) := by
  unfold runMainWith
  by_cases h2 : (op2 "joe" "hello" (op1 "test.txt" w).2).1 = ErrorCode.OK <;>
    simp [h1, h2]

/-- Witness for C8: the theorem applied at the actual stubs and the initial
world, whose `OpenFile` call does return `OK`. -/
theorem runMainWith_proceeds_after_ok_witness :
    Call.sendEmail "joe" "hello" ∈
      (runMainWith OpenFile SendEmail SystemCall ⟨[]⟩).calls ∧
    ((SendEmail "joe" "hello" (OpenFile "test.txt" ⟨[]⟩).2).1 = ErrorCode.OK →
      Call.systemCall "cd .." ∈
        (runMainWith OpenFile SendEmail SystemCall ⟨[]⟩).calls) :=
  runMainWith_proceeds_after_ok OpenFile SendEmail SystemCall ⟨[]⟩ rfl

/-- C9: each of the three operations is pure, stateless and deterministic:
its result `Status` is the same however the ambient world looks (it reads no
shared state, so two invocations at the same inputs agree), and it returns
the world unchanged (it mutates nothing); the `Status` is the sole output. -/
theorem operations_pure_stateless_deterministic (s t : String) (w w' : World) :
    ((OpenFile s w).1 = (OpenFile s w').1 ∧ (OpenFile s w).2 = w) ∧
    ((SendEmail s t w).1 = (SendEmail s t w').1 ∧ (SendEmail s t w).2 = w) ∧
    ((SystemCall s w).1 = (SystemCall s w').1 ∧ (SystemCall s w).2 = w) :=
  ⟨⟨rfl, rfl⟩, ⟨rfl, rfl⟩, ⟨rfl, rfl⟩⟩

/-- C10: with the actual stub definitions, both `return 1` branches of `main`
are unreachable: from every world the two conditional checks find `OK`, the
driver performs exactly the three calls once each, in order, and the exit
code is `0` (so `main` never returns `1`). -/
theorem main_error_branches_unreachable (w : World) :
    (OpenFile "test.txt" w).1 = ErrorCode.OK ∧
    (SendEmail "joe" "hello" (OpenFile "test.txt" w).2).1 = ErrorCode.OK ∧
    (main w).exitCode = 0 ∧
    (main w).calls = [Call.openFile "test.txt", Call.sendEmail "joe" "hello",
      Call.systemCall "cd .."] :=
  ⟨rfl, rfl, rfl, rfl⟩

end Nodiscard
